import Mathlib

/-!
Verification of the celestial simulation and interaction engine of the
"orbiting bodies" lesson (src/my-first-vue-app/src/views/Chapter11.vue).

The script of that view is shallowly embedded here:
* the orbital data model and the per-frame `animate` step over real numbers
  (JS numbers are idealised as elements of ℝ);
* the scale reconfigurator `updateScales`;
* pointer handlers `onCanvasClick` / `onCanvasMouseMove` where the external
  ray-cast service is abstracted as a `RayHit` value drawn from exactly the
  mesh set the source hands to the raycaster;
* the by-name entry point `focusOnBody`, with faithful JavaScript string
  semantics (`includes`, first-occurrence `replace`);
* the `animateCameraTo` closures together with the requestAnimationFrame
  callback queue they live in, over ℚ (camera math is trigonometry-free, so
  an exact executable model is possible).
-/

namespace SolarSim

/-- A three-component vector of reals (THREE.Vector3 for world coordinates). -/
structure Vec3R where
  x : ℝ
  y : ℝ
  z : ℝ

/-- Mouse cursor appearance of the canvas (`canvasRef.value.style.cursor`). -/
inductive Cursor where
  | default
  | pointer
deriving DecidableEq

/-- A pending camera focus request: the arguments the source passes to
`animateCameraTo(targetPosition, targetLookAt)`. -/
structure FocusRequest where
  targetPosition : Vec3R
  targetLookAt : Vec3R

/-- One entry of the `planetsData` table (Chapter11.vue lines 38-191).
Fields that no claim touches (colors, info strings) are omitted; the
optional moon/ring fields default like absent JS properties. -/
structure PlanetData where
  name : String
  baseSize : ℝ
  orbitRadius : ℝ
  orbitSpeed : ℝ
  rotationSpeed : ℝ
  angle : ℝ
  tilt : ℝ
  hasMoon : Bool := false
  moonBaseSize : ℝ := 0
  moonOrbitRadius : ℝ := 0
  moonOrbitSpeed : ℝ := 0
  moonAngle : ℝ := 0
  hasRings : Bool := false

/-- Mutable state of a planet's moon: `planetObj.moonData` (orbit state) plus
the moon mesh's position/rotation/geometry. `baseMoonSize` mirrors
`moon.userData.baseMoonSize`. -/
structure MoonState where
  orbitRadius : ℝ
  orbitSpeed : ℝ
  angle : ℝ
  baseMoonSize : ℝ
  geomRadius : ℝ
  posX : ℝ
  posY : ℝ
  posZ : ℝ
  rotY : ℝ

/-- Mutable state of one `planetObj`: the data record's orbit state, the mesh
transform, the sphere geometry's radius, the material's emissive intensity,
the optional ring geometry radii and moon.  `disposedGeoms` logs the radii of
sphere geometries that have been `dispose()`d for this mesh. -/
structure BodyState where
  name : String
  baseSize : ℝ
  orbitRadius : ℝ
  orbitSpeed : ℝ
  rotationSpeed : ℝ
  angle : ℝ
  tilt : ℝ
  geomRadius : ℝ
  emissiveIntensity : ℝ
  posX : ℝ
  posY : ℝ
  posZ : ℝ
  rotY : ℝ
  ringInner : Option ℝ
  ringOuter : Option ℝ
  moon : Option MoonState
  disposedGeoms : List ℝ

/-- One record of `asteroidData` (createAsteroidBelt, lines 498-546). -/
structure Asteroid where
  orbitRadius : ℝ
  angle : ℝ
  orbitSpeed : ℝ
  rotSpeedX : ℝ
  rotSpeedY : ℝ
  rotSpeedZ : ℝ

/-- The engine state owned by the view: the solarSystem record, the scale
refs, the selection refs, the cursor, the last camera-focus request handed to
`animateCameraTo`, and a count of frames handed to `renderer.render`. -/
structure SystemState where
  sunRotY : ℝ
  sunGeomRadius : ℝ
  sunGlowRadius : ℝ
  sunDisposed : List ℝ
  planets : List BodyState
  asteroids : List Asteroid
  sunScale : ℝ
  planetScale : ℝ
  moonScale : ℝ
  selectedPlanet : Option String
  selectedPlanetName : Option String
  lastFocus : Option FocusRequest
  cursor : Cursor
  renderCount : ℕ

/-- The per-planet body of `animate` (lines 773-794): advance the orbital
angle by `orbitSpeed * scaledDelta`, re-derive the position on the circle,
accumulate self-rotation, and recompute the moon (if any) about the parent's
new position. -/
noncomputable def tickBody (scaledDelta : ℝ) (b : BodyState) : BodyState :=
  let angle := b.angle + b.orbitSpeed * scaledDelta
  let posX := Real.cos angle * b.orbitRadius
  let posZ := Real.sin angle * b.orbitRadius
  let rotY := b.rotY + b.rotationSpeed * scaledDelta
  let moon := b.moon.map (fun m =>
    let mangle := m.angle + m.orbitSpeed * scaledDelta
    { m with
        angle := mangle
        posX := posX + Real.cos mangle * m.orbitRadius
        posZ := posZ + Real.sin mangle * m.orbitRadius
        rotY := m.rotY + 0.01 * scaledDelta })
  { b with angle := angle, posX := posX, posZ := posZ, rotY := rotY, moon := moon }

/-- The per-asteroid mutation of `animate` (line 802): only the record's
angle advances; speeds are fixed at creation. -/
noncomputable def tickAsteroid (scaledDelta : ℝ) (a : Asteroid) : Asteroid :=
  { a with angle := a.angle + a.orbitSpeed * scaledDelta }

/-- One call of `animate` (lines 762-829): when not paused, advance the sun's
rotation, every planet (with moon) and every asteroid record by
`scaledDelta = delta * timeScale`; in every case the frame is then handed to
`renderer.render` (modelled by the render counter). -/
noncomputable def frameTick (paused : Bool) (timeScale delta : ℝ)
    (s : SystemState) : SystemState :=
  let s1 :=
    if paused then s
    else
      let scaledDelta := delta * timeScale
      { s with
          sunRotY := s.sunRotY + 0.001 * scaledDelta
          planets := s.planets.map (tickBody scaledDelta)
          asteroids := s.asteroids.map (tickAsteroid scaledDelta) }
  { s1 with renderCount := s1.renderCount + 1 }

/-- The `planetsData` entry for Mercury. -/
noncomputable def mercuryData : PlanetData :=
  { name := "Mercury", baseSize := 0.38, orbitRadius := 40, orbitSpeed := 0.04
    rotationSpeed := 0.002, angle := 0, tilt := 0.01 }

/-- The `planetsData` entry for Venus. -/
noncomputable def venusData : PlanetData :=
  { name := "Venus", baseSize := 0.95, orbitRadius := 70, orbitSpeed := 0.015
    rotationSpeed := -0.001, angle := Real.pi / 4, tilt := 0.05 }

/-- The `planetsData` entry for Earth (the spec's "Earth-analog"): the only
planet with `hasMoon`. -/
noncomputable def earthData : PlanetData :=
  { name := "Earth", baseSize := 1.0, orbitRadius := 100, orbitSpeed := 0.01
    rotationSpeed := 0.005, angle := Real.pi / 2, tilt := 0.41
    hasMoon := true, moonBaseSize := 0.27, moonOrbitRadius := 3
    moonOrbitSpeed := 0.03, moonAngle := 0 }

/-- The `planetsData` entry for Mars. -/
noncomputable def marsData : PlanetData :=
  { name := "Mars", baseSize := 0.53, orbitRadius := 150, orbitSpeed := 0.008
    rotationSpeed := 0.004, angle := 3 * Real.pi / 4, tilt := 0.44 }

/-- The `planetsData` entry for Jupiter. -/
noncomputable def jupiterData : PlanetData :=
  { name := "Jupiter", baseSize := 5.0, orbitRadius := 250, orbitSpeed := 0.004
    rotationSpeed := 0.01, angle := Real.pi, tilt := 0.05 }

/-- The `planetsData` entry for Saturn: the only planet with `hasRings`. -/
noncomputable def saturnData : PlanetData :=
  { name := "Saturn", baseSize := 4.5, orbitRadius := 350, orbitSpeed := 0.003
    rotationSpeed := 0.009, angle := 5 * Real.pi / 4, tilt := 0.47
    hasRings := true }

/-- The `planetsData` entry for Uranus. -/
noncomputable def uranusData : PlanetData :=
  { name := "Uranus", baseSize := 2.0, orbitRadius := 420, orbitSpeed := 0.002
    rotationSpeed := 0.007, angle := 3 * Real.pi / 2, tilt := 1.71 }

/-- The `planetsData` entry for Neptune. -/
noncomputable def neptuneData : PlanetData :=
  { name := "Neptune", baseSize := 1.95, orbitRadius := 480, orbitSpeed := 0.001
    rotationSpeed := 0.008, angle := 7 * Real.pi / 4, tilt := 0.49 }

/-- The `planetsData` table in order (lines 38-191). -/
noncomputable def planetsData : List PlanetData :=
  [mercuryData, venusData, earthData, marsData, jupiterData, saturnData,
   uranusData, neptuneData]

/-- The creation-time emissive intensity of every planet material
(createPlanets line 358). -/
noncomputable def creationEmissive : ℝ := 0.3

/-- One iteration of `createPlanets` (lines 351-425): build the mesh state
for a data record, at the current planet/moon scale factors.  The sphere
geometry radius is `baseSize * planetScale`; the position is placed on the
orbit circle from the starting angle; Saturn's ring radii are 1.5x and 2.5x
the sphere radius; Earth's moon starts at local position `(moonOrbitRadius,
0, 0)` with geometry radius `moonBaseSize * moonScale`. -/
noncomputable def createPlanet (planetScale moonScale : ℝ) (d : PlanetData) : BodyState :=
  let size := d.baseSize * planetScale
  { name := d.name
    baseSize := d.baseSize
    orbitRadius := d.orbitRadius
    orbitSpeed := d.orbitSpeed
    rotationSpeed := d.rotationSpeed
    angle := d.angle
    tilt := d.tilt
    geomRadius := size
    emissiveIntensity := creationEmissive
    posX := Real.cos d.angle * d.orbitRadius
    posY := 0
    posZ := Real.sin d.angle * d.orbitRadius
    rotY := 0
    ringInner := if d.hasRings then some (size * 1.5) else none
    ringOuter := if d.hasRings then some (size * 2.5) else none
    moon :=
      if d.hasMoon then
        some { orbitRadius := d.moonOrbitRadius, orbitSpeed := d.moonOrbitSpeed
               angle := d.moonAngle, baseMoonSize := d.moonBaseSize
               geomRadius := d.moonBaseSize * moonScale
               posX := d.moonOrbitRadius, posY := 0, posZ := 0, rotY := 0 }
      else none
    disposedGeoms := [] }

/-- The asteroid count of `createAsteroidBelt` (line 499). -/
def asteroidCount : ℕ := 800

/-- One iteration of the `createAsteroidBelt` loop (lines 515-542): the
record's randomized-but-fixed parameters, fed from an abstract random
stream (Math.random). -/
noncomputable def mkAsteroid (rand : ℕ → ℝ) (i : ℕ) : Asteroid :=
  { orbitRadius := 180 + rand (6 * i) * 40
    angle := rand (6 * i + 1) * (Real.pi * 2)
    orbitSpeed := 0.002 + rand (6 * i + 2) * 0.001
    rotSpeedX := (rand (6 * i + 3) - 0.5) * 0.02
    rotSpeedY := (rand (6 * i + 4) - 0.5) * 0.02
    rotSpeedZ := (rand (6 * i + 5) - 0.5) * 0.02 }

/-- `createAsteroidBelt` (lines 498-546): exactly `asteroidCount` records,
created once. -/
noncomputable def createAsteroidBelt (rand : ℕ → ℝ) : List Asteroid :=
  (List.range asteroidCount).map (mkAsteroid rand)

/-- The engine state right after `onMounted` (lines 226-236): the sun sphere
of radius 10 with its glow of radius 13, `createPlanets` run at the initial
scale refs (sun 3, planets 4, moons 6), the asteroid belt, no selection, the
default cursor. -/
noncomputable def initState (rand : ℕ → ℝ) : SystemState :=
  { sunRotY := 0, sunGeomRadius := 10, sunGlowRadius := 13, sunDisposed := []
    planets := planetsData.map (createPlanet 4 6)
    asteroids := createAsteroidBelt rand
    sunScale := 3, planetScale := 4, moonScale := 6
    selectedPlanet := none, selectedPlanetName := none
    lastFocus := none, cursor := Cursor.default, renderCount := 0 }

/-- `updateScales` per planet (lines 444-465): dispose the sphere geometry
and rebuild it at `baseSize * planetScale`; rebuild ring geometry at 1.5x
and 2.5x the new sphere radius; rebuild the moon geometry at
`baseMoonSize * moonScale`.  Orbit state, position and rotation are not
touched. -/
noncomputable def updateScalesBody (planetScale moonScale : ℝ) (b : BodyState) : BodyState :=
  let newSize := b.baseSize * planetScale
  { b with
      geomRadius := newSize
      disposedGeoms := b.geomRadius :: b.disposedGeoms
      ringInner := b.ringInner.map (fun _ => newSize * 1.5)
      ringOuter := b.ringOuter.map (fun _ => newSize * 2.5)
      moon := b.moon.map (fun m => { m with geomRadius := m.baseMoonSize * moonScale }) }

/-- `updateScales` (lines 427-466): rebuild the sun sphere and glow at
`10 * sunScale` (and 1.2x that), then every planet via `updateScalesBody`. -/
noncomputable def updateScales (s : SystemState) : SystemState :=
  { s with
      sunGeomRadius := 10 * s.sunScale
      sunGlowRadius := 10 * s.sunScale * 1.2
      sunDisposed := s.sunGeomRadius :: s.sunGlowRadius :: s.sunDisposed
      planets := s.planets.map (updateScalesBody s.planetScale s.moonScale) }

/-- Writing the planet-scale slider: the `v-model` assignment followed by the
`watch([sunScale, planetScale, moonScale])` callback running `updateScales`
(lines 279-281). -/
noncomputable def setPlanetScale (v : ℝ) (s : SystemState) : SystemState :=
  updateScales { s with planetScale := v }

/-- The outcome of the external ray-cast service for a pointer event: the
source tests the ray exactly against the sun mesh and the planet meshes
(lines 615-627 and 647-649), so a hit is the sun, a planet mesh (identified
by its `name`), or nothing. -/
inductive RayHit where
  | sun
  | planet (name : String)
  | miss

/-- `onCanvasMouseMove` (lines 642-665): reset every planet material's
emissive intensity to 0.1, then, if a mesh is hit and it is not the sun, set
the hit planet's emissive intensity to 0.3; the cursor is `pointer` exactly
when something was hit. -/
noncomputable def onCanvasMouseMove (hit : RayHit) (s : SystemState) : SystemState :=
  let planets1 := s.planets.map (fun p => { p with emissiveIntensity := 0.1 })
  match hit with
  | RayHit.sun => { s with planets := planets1, cursor := Cursor.pointer }
  | RayHit.planet n =>
      { s with
          planets := planets1.map (fun p =>
            if p.name == n then { p with emissiveIntensity := 0.3 } else p)
          cursor := Cursor.pointer }
  | RayHit.miss => { s with planets := planets1, cursor := Cursor.default }

/-- `focusOnSun` (lines 673-676). -/
noncomputable def focusOnSunReq : FocusRequest :=
  { targetPosition := { x := 100, y := 80, z := 100 }
    targetLookAt := { x := 0, y := 0, z := 0 } }

/-- `focusOnPlanet` (lines 678-686): the camera target is offset from the
planet's current position by `baseSize * planetScale * 8`. -/
noncomputable def focusOnPlanetReq (planetScale : ℝ) (b : BodyState) : FocusRequest :=
  let distance := b.baseSize * planetScale * 8
  { targetPosition := { x := b.posX + distance, y := distance * 0.5, z := b.posZ + distance }
    targetLookAt := { x := b.posX, y := b.posY, z := b.posZ } }

/-- The camera request of the moon branch of `focusOnBody` (lines 700-708). -/
noncomputable def moonFocusReq (moonScale : ℝ) (m : MoonState) : FocusRequest :=
  let moonSize := m.baseMoonSize * moonScale
  let distance := moonSize * 10
  { targetPosition := { x := m.posX + distance, y := distance * 0.3, z := m.posZ + distance }
    targetLookAt := { x := m.posX, y := m.posY, z := m.posZ } }

/-- `onCanvasClick` (lines 609-640): a sun hit selects the sun (name only,
no planet metadata) and focuses it; a planet hit resolves the mesh among the
planet list, stores its data as the selection and focuses it; a miss clears
the selection. -/
noncomputable def onCanvasClick (hit : RayHit) (s : SystemState) : SystemState :=
  match hit with
  | RayHit.sun =>
      { s with lastFocus := some focusOnSunReq
               selectedPlanet := none, selectedPlanetName := some "Sun" }
  | RayHit.planet n =>
      match s.planets.find? (fun p => p.name == n) with
      | some b =>
          { s with selectedPlanet := some b.name, selectedPlanetName := some b.name
                   lastFocus := some (focusOnPlanetReq s.planetScale b) }
      | none => s
  | RayHit.miss => { s with selectedPlanet := none, selectedPlanetName := none }

/-- Whether a body name carries the selected flag: the template's `active`
class compares `selectedPlanetName === body.name` (line 921). -/
def isSelected (s : SystemState) (n : String) : Prop := s.selectedPlanetName = some n

/-- JavaScript `String.prototype.includes(pat)` over explicit character
lists: some position of the subject starts with the pattern. -/
def strIncludes (pat : List Char) : List Char → Bool
  | [] => pat.isEmpty
  | c :: t => pat.isPrefixOf (c :: t) || strIncludes pat t

/-- JavaScript `String.prototype.replace(pat, rep)` with a string pattern:
only the first (leftmost) occurrence is replaced. -/
def replaceFirst (pat rep : List Char) : List Char → List Char
  | [] => []
  | c :: t =>
      if pat.isPrefixOf (c :: t) then rep ++ (c :: t).drop pat.length
      else c :: replaceFirst pat rep t

/-- `bodyName.includes(pat)`. -/
def jsIncludes (s pat : String) : Bool := strIncludes pat.data s.data

/-- `bodyName.replace(pat, rep)` (first occurrence only, as in JS). -/
def jsReplaceFirst (s pat rep : String) : String := ⟨replaceFirst pat.data rep.data s.data⟩

/-- The literal `"'s Moon"` used by `focusOnBody` and the computed
celestial-bodies list. -/
def moonSuffix : String := "'s Moon"

/-- `focusOnBody(bodyName)` (lines 688-722): "Sun" focuses the sun; a name
containing `"'s Moon"` is resolved by stripping the first occurrence and
looking the parent planet up — when the parent exists and has a moon the
camera focuses the moon and only `selectedPlanetName` is set (no planet
metadata); otherwise the name is looked up as a planet; an unresolved lookup
leaves the state untouched. -/
noncomputable def focusOnBody (bodyName : String) (s : SystemState) : SystemState :=
  if bodyName = "Sun" then
    { s with lastFocus := some focusOnSunReq
             selectedPlanet := none, selectedPlanetName := some "Sun" }
  else if jsIncludes bodyName moonSuffix then
    match s.planets.find? (fun p => p.name == jsReplaceFirst bodyName moonSuffix "") with
    | some p =>
        match p.moon with
        | some m =>
            { s with lastFocus := some (moonFocusReq s.moonScale m)
                     selectedPlanet := none, selectedPlanetName := some bodyName }
        | none => s
    | none => s
  else
    match s.planets.find? (fun p => p.name == bodyName) with
    | some p =>
        { s with selectedPlanet := some p.name, selectedPlanetName := some bodyName
                 lastFocus := some (focusOnPlanetReq s.planetScale p) }
    | none => s

/-- The computed `celestialBodies` list of names (lines 210-224): the sun,
then each planet followed by its moon (when `hasMoon`). -/
noncomputable def celestialBodyNames (s : SystemState) : List String :=
  "Sun" :: s.planets.flatMap (fun p =>
    p.name :: if p.moon.isSome then [p.name ++ moonSuffix] else [])

/-- The mesh set `onCanvasClick` and `onCanvasMouseMove` hand to the
raycaster: the sun mesh plus the planet meshes (lines 615, 626, 647-648) —
moon meshes are never in it. -/
noncomputable def clickTested (s : SystemState) : List String :=
  "Sun" :: s.planets.map (fun p => p.name)

/-- The moon mesh names present in the scene. -/
noncomputable def moonNamesOf (s : SystemState) : List String :=
  (s.planets.filter (fun p => p.moon.isSome)).map (fun p => p.name ++ moonSuffix)

/-- C2: a frame tick executed while paused leaves every body's orbital
angle, self-rotation angle and derived position — and every minor-body
record — exactly unchanged (the whole simulation state is bit-for-bit the
same), while the frame is still handed to the renderer (the render counter
still advances). -/
theorem paused_tick_preserves_state :
    (∀ (timeScale delta : ℝ) (s : SystemState),
      frameTick true timeScale delta s = { s with renderCount := s.renderCount + 1 }) ∧
    (∀ (timeScale delta : ℝ) (s : SystemState),
      (frameTick true timeScale delta s).planets = s.planets ∧
      (frameTick true timeScale delta s).asteroids = s.asteroids ∧
      (frameTick true timeScale delta s).renderCount = s.renderCount + 1) :=
  ⟨fun _ _ _ => rfl, fun _ _ _ => ⟨rfl, rfl, rfl⟩⟩

/-- The Earth body as built at mount time (planet scale 4, moon scale 6). -/
noncomputable def earthBody : BodyState := createPlanet 4 6 earthData

/-- C1: a frame tick with `paused=false` advances every body's angle by
`angularSpeed * (delta * timeScale)` and re-derives the position as
`(cos(angle') * orbitRadius, y, sin(angle') * orbitRadius)`; a moon's
position is the parent's current (just-updated) position plus
`(cos(localAngle') * localRadius, 0, sin(localAngle') * localRadius)` (the
vertical offset starts at 0 and is never changed).  For Earth
(`orbitRadius=100`, `orbitSpeed=0.01`, `angle=pi/2`) after `delta=1` at
`timeScale=1` the new angle is within 1e-5 of 1.580796 and the position is
within 1e-3 of -1.000 in x and within 5e-3 of 99.995 in z. -/
theorem orbit_tick_formula :
    (∀ (scaledDelta : ℝ) (b : BodyState),
      (tickBody scaledDelta b).angle = b.angle + b.orbitSpeed * scaledDelta) ∧
    (∀ (scaledDelta : ℝ) (b : BodyState),
      (tickBody scaledDelta b).posX
        = Real.cos (b.angle + b.orbitSpeed * scaledDelta) * b.orbitRadius ∧
      (tickBody scaledDelta b).posZ
        = Real.sin (b.angle + b.orbitSpeed * scaledDelta) * b.orbitRadius ∧
      (tickBody scaledDelta b).posY = b.posY) ∧
    (∀ (scaledDelta : ℝ) (b : BodyState),
      (tickBody scaledDelta b).moon = b.moon.map (fun m =>
        { m with
            angle := m.angle + m.orbitSpeed * scaledDelta
            posX := (tickBody scaledDelta b).posX
              + Real.cos (m.angle + m.orbitSpeed * scaledDelta) * m.orbitRadius
            posZ := (tickBody scaledDelta b).posZ
              + Real.sin (m.angle + m.orbitSpeed * scaledDelta) * m.orbitRadius
            rotY := m.rotY + 0.01 * scaledDelta })) ∧
    (∀ (timeScale delta : ℝ) (s : SystemState),
      (frameTick false timeScale delta s).planets
        = s.planets.map (tickBody (delta * timeScale))) ∧
    (earthBody.posY = 0 ∧ earthBody.moon.map (fun m => m.posY) = some 0) ∧
    |(tickBody (1 * 1) earthBody).angle - 1.580796| < 1e-5 ∧
    |(tickBody (1 * 1) earthBody).posX - (-1)| < 1e-3 ∧
    |(tickBody (1 * 1) earthBody).posZ - 99.995| ≤ 5e-3 := by
  refine ⟨fun _ _ => rfl, fun _ _ => ⟨rfl, rfl, rfl⟩, fun _ _ => rfl,
    fun _ _ _ => rfl, ⟨rfl, rfl⟩, ?_, ?_, ?_⟩
  · have ha : (tickBody (1 * 1) earthBody).angle
        = Real.pi / 2 + 0.01 * (1 * 1) := rfl
    have h1 := Real.pi_gt_d6
    have h2 := Real.pi_lt_d6
    rw [ha, abs_lt]
    constructor <;> linarith
  · have hx : (tickBody (1 * 1) earthBody).posX
        = Real.cos (Real.pi / 2 + 0.01 * (1 * 1)) * 100 := rfl
    have hang : Real.pi / 2 + 0.01 * (1 * 1) = Real.pi / 2 + 0.01 := by ring
    have hs1 : Real.sin 0.01 < 0.01 := Real.sin_lt (by norm_num)
    have hs2 : (0.01 : ℝ) - 0.01 ^ 3 / 4 < Real.sin 0.01 :=
      Real.sin_gt_sub_cube (by norm_num) (by norm_num)
    have hcos : Real.cos (Real.pi / 2 + 0.01) = - Real.sin 0.01 := by
      rw [Real.cos_add, Real.cos_pi_div_two, Real.sin_pi_div_two]; ring
    rw [hx, hang, hcos, abs_lt]
    constructor <;> linarith
  · have hz : (tickBody (1 * 1) earthBody).posZ
        = Real.sin (Real.pi / 2 + 0.01 * (1 * 1)) * 100 := rfl
    have hang : Real.pi / 2 + 0.01 * (1 * 1) = Real.pi / 2 + 0.01 := by ring
    have hc1 : Real.cos 0.01 ≤ 1 := Real.cos_le_one _
    have hc2 : (1 : ℝ) - 0.01 ^ 2 / 2 < Real.cos 0.01 :=
      Real.one_sub_sq_div_two_lt_cos (by norm_num)
    have hsin : Real.sin (Real.pi / 2 + 0.01) = Real.cos 0.01 := by
      rw [Real.sin_add, Real.sin_pi_div_two, Real.cos_pi_div_two]; ring
    rw [hz, hang, hsin, abs_le]
    constructor <;> linarith

/-- C7: the asteroid field is created once with exactly 800 records, and no
frame tick — paused or not, at any time scale — ever adds or removes a
record: the population count is invariant across any number of ticks. -/
theorem asteroid_population_invariant :
    (∀ (rand : ℕ → ℝ), (createAsteroidBelt rand).length = 800) ∧
    asteroidCount = 800 ∧
    (∀ (paused : Bool) (timeScale delta : ℝ) (s : SystemState),
      (frameTick paused timeScale delta s).asteroids.length = s.asteroids.length) ∧
    (∀ (n : ℕ) (paused : Bool) (timeScale delta : ℝ) (s : SystemState),
      ((frameTick paused timeScale delta)^[n] s).asteroids.length
        = s.asteroids.length) := by
  refine ⟨?_, rfl, ?_, ?_⟩
  · intro rand
    simp [createAsteroidBelt, asteroidCount]
  · intro paused timeScale delta s
    cases paused <;> simp [frameTick]
  · intro n paused timeScale delta s
    induction n generalizing s with
    | zero => rfl
    | succ k ih =>
        rw [Function.iterate_succ_apply]
        rw [ih]
        cases paused <;> simp [frameTick]

/-- C3: changing the planet scale multiplier rebuilds every planet's sphere
geometry at `baseSize * multiplier`, disposing the previous geometry in the
same operation and rebuilding ring geometry at 1.5x/2.5x the new radius,
while `orbitRadius`, `orbitSpeed`, `angle`, position and rotation are left
exactly unchanged.  Going from 4x to 8x doubles Earth's visual radius and
keeps its `orbitRadius` at 100. -/
theorem scale_rebuild_geometry_only :
    (∀ (v : ℝ) (s : SystemState),
      (setPlanetScale v s).planets = s.planets.map (updateScalesBody v s.moonScale)) ∧
    (∀ (ps ms : ℝ) (b : BodyState),
      (updateScalesBody ps ms b).geomRadius = b.baseSize * ps ∧
      b.geomRadius ∈ (updateScalesBody ps ms b).disposedGeoms ∧
      (updateScalesBody ps ms b).ringInner
        = b.ringInner.map (fun _ => b.baseSize * ps * 1.5) ∧
      (updateScalesBody ps ms b).ringOuter
        = b.ringOuter.map (fun _ => b.baseSize * ps * 2.5) ∧
      (updateScalesBody ps ms b).orbitRadius = b.orbitRadius ∧
      (updateScalesBody ps ms b).orbitSpeed = b.orbitSpeed ∧
      (updateScalesBody ps ms b).angle = b.angle ∧
      (updateScalesBody ps ms b).posX = b.posX ∧
      (updateScalesBody ps ms b).posY = b.posY ∧
      (updateScalesBody ps ms b).posZ = b.posZ ∧
      (updateScalesBody ps ms b).rotY = b.rotY ∧
      (updateScalesBody ps ms b).tilt = b.tilt) ∧
    (updateScalesBody 8 6 earthBody).geomRadius = 2 * earthBody.geomRadius ∧
    (updateScalesBody 8 6 earthBody).orbitRadius = 100 := by
  refine ⟨fun _ _ => rfl,
    fun ps ms b => ⟨rfl, List.mem_cons_self _ _, rfl, rfl, rfl, rfl, rfl, rfl,
      rfl, rfl, rfl, rfl⟩, ?_, rfl⟩
  have h1 : (updateScalesBody 8 6 earthBody).geomRadius = (1.0 : ℝ) * 8 := rfl
  have h2 : earthBody.geomRadius = (1.0 : ℝ) * 4 := rfl
  rw [h1, h2]
  norm_num

/-- A one-planet state (Earth selected, creation-time appearance) used to
exercise the hover handler at a concrete input. -/
noncomputable def hoverDemoState : SystemState :=
  { sunRotY := 0, sunGeomRadius := 10, sunGlowRadius := 13, sunDisposed := []
    planets := [earthBody], asteroids := []
    sunScale := 3, planetScale := 4, moonScale := 6
    selectedPlanet := some "Earth", selectedPlanetName := some "Earth"
    lastFocus := none, cursor := Cursor.default, renderCount := 0 }

/-- C8 counterexample: after a pointer-move that hits nothing, a planet's
emissive intensity is 0.1, which differs from its creation-time value 0.3 —
the appearance does not return to the default creation-time appearance. -/
theorem hover_clear_counterexample :
    hoverDemoState.planets.map (fun p => p.emissiveIntensity) = [creationEmissive] ∧
    (onCanvasMouseMove RayHit.miss hoverDemoState).planets.map
      (fun p => p.emissiveIntensity) = [0.1] ∧
    (0.1 : ℝ) ≠ creationEmissive ∧
    (onCanvasMouseMove RayHit.miss hoverDemoState).cursor = Cursor.default := by
  refine ⟨rfl, rfl, ?_, rfl⟩
  norm_num [creationEmissive]

/-- C8 amended: every pointer-move first resets every planet's emissive
intensity to the hover baseline 0.1 (not the creation-time 0.3); a non-sun
hit then raises the hit planet to 0.3 and shows the pointer cursor; a miss
leaves all planets at the baseline and restores the default cursor. -/
theorem hover_reset_spec :
    (∀ (s : SystemState),
      (onCanvasMouseMove RayHit.miss s).planets
        = s.planets.map (fun p => { p with emissiveIntensity := 0.1 }) ∧
      (onCanvasMouseMove RayHit.miss s).cursor = Cursor.default) ∧
    (∀ (s : SystemState),
      (onCanvasMouseMove RayHit.sun s).planets
        = s.planets.map (fun p => { p with emissiveIntensity := 0.1 }) ∧
      (onCanvasMouseMove RayHit.sun s).cursor = Cursor.pointer) ∧
    (∀ (n : String) (s : SystemState),
      (onCanvasMouseMove (RayHit.planet n) s).planets
        = s.planets.map (fun p =>
            if p.name == n then { p with emissiveIntensity := 0.3 }
            else { p with emissiveIntensity := 0.1 }) ∧
      (onCanvasMouseMove (RayHit.planet n) s).cursor = Cursor.pointer) := by
  refine ⟨fun s => ⟨rfl, rfl⟩, fun s => ⟨rfl, rfl⟩, fun n s => ⟨?_, rfl⟩⟩
  simp only [onCanvasMouseMove, List.map_map]
  rfl

/-- The state after clicking the Mercury mesh on the freshly mounted
engine. -/
noncomputable def clickDemo1 : SystemState :=
  onCanvasClick (RayHit.planet "Mercury") (initState fun _ => 0)

/-- The state after then clicking the Venus mesh. -/
noncomputable def clickDemo2 : SystemState :=
  onCanvasClick (RayHit.planet "Venus") clickDemo1

/-- C4: at every moment at most one body carries the selected flag (two
selected names are necessarily equal), and in the Mercury-then-Venus click
scenario exactly Mercury is selected after the first click and exactly Venus
— with Mercury's highlight cleared by the same operation — after the
second. -/
theorem click_selection_exclusive :
    (∀ (s : SystemState) (a b : String),
      (isSelected s a ∧ isSelected s b) ↔ (isSelected s a ∧ a = b)) ∧
    (∀ n : String, isSelected clickDemo1 n ↔ n = "Mercury") ∧
    (∀ n : String, isSelected clickDemo2 n ↔ n = "Venus") := by
  refine ⟨?_, ?_, ?_⟩
  · intro s a b
    constructor
    · rintro ⟨ha, hb⟩
      exact ⟨ha, Option.some_inj.mp (ha.symm.trans hb)⟩
    · rintro ⟨ha, rfl⟩
      exact ⟨ha, ha⟩
  · intro n
    have h : clickDemo1.selectedPlanetName = some "Mercury" := rfl
    unfold isSelected
    rw [h]
    constructor
    · intro hh
      exact (Option.some_inj.mp hh).symm
    · intro hh
      rw [hh]
  · intro n
    have h : clickDemo2.selectedPlanetName = some "Venus" := rfl
    unfold isSelected
    rw [h]
    constructor
    · intro hh
      exact (Option.some_inj.mp hh).symm
    · intro hh
      rw [hh]

/-- C10: the ray-cast set for click and hover holds only the sun and the
eight planet meshes — no moon name is in it; every click leaves the selected
name unchanged or equal to `none`, `"Sun"` or a planet name (never a moon);
and the by-name entry point, for a moon, focuses the camera but leaves the
selected-body metadata (`selectedPlanet`) empty. -/
theorem click_hit_testing_excludes_moons :
    moonNamesOf (initState fun _ => 0) = ["Earth's Moon"] ∧
    ((moonNamesOf (initState fun _ => 0)).all
      (fun n => !((clickTested (initState fun _ => 0)).contains n))) = true ∧
    (∀ (hit : RayHit) (s : SystemState),
      (onCanvasClick hit s).selectedPlanetName = s.selectedPlanetName ∨
      (onCanvasClick hit s).selectedPlanetName
        ∈ (none : Option String) :: some "Sun" :: s.planets.map (fun p => some p.name)) ∧
    (focusOnBody "Earth's Moon" (initState fun _ => 0)).selectedPlanet = none ∧
    (focusOnBody "Earth's Moon" (initState fun _ => 0)).selectedPlanetName
      = some "Earth's Moon" ∧
    ((focusOnBody "Earth's Moon" (initState fun _ => 0)).lastFocus).isSome = true := by
  refine ⟨rfl, rfl, ?_, rfl, rfl, rfl⟩
  intro hit s
  cases hit with
  | sun =>
      right
      exact List.mem_cons_of_mem _ (List.mem_cons_self _ _)
  | planet n =>
      cases hfind : s.planets.find? (fun p => p.name == n) with
      | none =>
          left
          simp only [onCanvasClick]
          rw [hfind]
      | some b =>
          right
          have hb : b ∈ s.planets := List.mem_of_find?_eq_some hfind
          have hmem : some b.name ∈ s.planets.map (fun p => some p.name) :=
            List.mem_map_of_mem _ hb
          simp only [onCanvasClick]
          rw [hfind]
          exact List.mem_cons_of_mem _ (List.mem_cons_of_mem _ hmem)
  | miss =>
      right
      exact List.mem_cons_self _ _

/-- If a list does not contain `a` (by `==`), no member equals `a`. -/
lemma ne_of_contains_eq_false {a : String} {l : List String}
    (h : l.contains a = false) : ∀ x ∈ l, x ≠ a := by
  intro x hx heq
  subst heq
  have hc : l.contains x = true := by
    rw [List.contains_eq_any_beq, List.any_eq_true]
    exact ⟨x, hx, by simp⟩
  rw [hc] at h
  exact Bool.noConfusion h

/-- C9 counterexample: `"Ear's Moonth"` is absent from the celestial-bodies
catalog, yet `focusOnBody` is not a no-op on it — JS `replace` strips the
first `"'s Moon"` occurrence, yielding the planet name `"Earth"`, so the
camera focuses Earth's moon and the selected name becomes the absent
name. -/
theorem focus_adversarial_name_counterexample :
    ((celestialBodyNames (initState fun _ => 0)).contains "Ear's Moonth") = false ∧
    (initState fun _ => 0).selectedPlanetName = none ∧
    (initState fun _ => 0).lastFocus = none ∧
    (focusOnBody "Ear's Moonth" (initState fun _ => 0)).selectedPlanetName
      = some "Ear's Moonth" ∧
    ((focusOnBody "Ear's Moonth" (initState fun _ => 0)).lastFocus).isSome = true :=
  ⟨rfl, rfl, rfl, rfl, rfl⟩

/-- C9 amended: a body name that is not `"Sun"`, not a planet name, and
whose first-occurrence `"'s Moon"` strip is not the name of a moon-bearing
planet, is a no-op for `focusOnBody`: no crash, no state change.  (Absence
from the catalog alone is not enough: an absent name such as
`"Ear's Moonth"` strips to `"Earth"` and does change state.) -/
theorem focus_absent_name_noop (s : SystemState) (name : String)
    (hsun : (name == "Sun") = false)
    (hplanet : (s.planets.map (fun p => p.name)).contains name = false)
    (hmoon : ((s.planets.filter (fun p => p.moon.isSome)).map (fun p => p.name)).contains
        (jsReplaceFirst name moonSuffix "") = false) :
    focusOnBody name s = s := by
  have hsun' : ¬ (name = "Sun") := by simpa using hsun
  unfold focusOnBody
  rw [if_neg hsun']
  by_cases hinc : jsIncludes name moonSuffix = true
  · rw [if_pos hinc]
    split
    · rename_i p hfind
      split
      · rename_i m hm
        exfalso
        have hp : p ∈ s.planets := List.mem_of_find?_eq_some hfind
        have hpred := List.find?_some hfind
        have hname : p.name = jsReplaceFirst name moonSuffix "" := by
          simpa using hpred
        have hmem : p ∈ s.planets.filter (fun q => q.moon.isSome) :=
          List.mem_filter.2 ⟨hp, by rw [hm]; rfl⟩
        have hmapped : p.name
            ∈ (s.planets.filter (fun q => q.moon.isSome)).map (fun q => q.name) :=
          List.mem_map_of_mem _ hmem
        exact ne_of_contains_eq_false hmoon _ hmapped hname
      · rfl
    · rfl
  · rw [if_neg hinc]
    split
    · rename_i p hfind
      exfalso
      have hp : p ∈ s.planets := List.mem_of_find?_eq_some hfind
      have hpred := List.find?_some hfind
      have hname : p.name = name := by simpa using hpred
      have hmapped : p.name ∈ s.planets.map (fun q => q.name) :=
        List.mem_map_of_mem _ hp
      exact ne_of_contains_eq_false hplanet _ hmapped hname
    · rfl

/-- Witness for the amended C9 theorem at the concrete absent name
`"Pluto"` on the freshly mounted engine. -/
theorem focus_absent_name_noop_witness :
    ((("Pluto" : String) == "Sun") = false) ∧
    (((initState fun _ => 0).planets.map (fun p => p.name)).contains "Pluto" = false) ∧
    ((((initState fun _ => 0).planets.filter (fun p => p.moon.isSome)).map
        (fun p => p.name)).contains (jsReplaceFirst "Pluto" moonSuffix "") = false) ∧
    focusOnBody "Pluto" (initState fun _ => 0) = (initState fun _ => 0) :=
  ⟨rfl, rfl, rfl, focus_absent_name_noop _ _ rfl rfl rfl⟩

/-- A three-component rational vector: camera positions and look-at points
(the camera math of the source is trigonometry-free, so it embeds exactly
over ℚ). -/
structure Vec3Q where
  x : ℚ
  y : ℚ
  z : ℚ
deriving DecidableEq

/-- One `animateCamera` closure created by `animateCameraTo` (lines 724-745):
the captured start position (`camera.position.clone()`), start look-at
(`controls.target.clone()`), the requested targets, and `startTime`
(`Date.now()`, wall-clock). -/
structure CamClosure where
  startPos : Vec3Q
  startLook : Vec3Q
  targetPos : Vec3Q
  targetLook : Vec3Q
  startTime : ℚ
deriving DecidableEq

/-- The fixed transition duration in milliseconds (line 727). -/
def camDuration : ℚ := 1500

/-- `progress = Math.min(elapsed / duration, 1)` (line 732) at wall-clock
time `now`. -/
def camProgress (c : CamClosure) (now : ℚ) : ℚ :=
  min ((now - c.startTime) / camDuration) 1

/-- The quadratic ease-in-out of line 734. -/
def easeQ (p : ℚ) : ℚ :=
  if p < 0.5 then 2 * p * p else -1 + (4 - 2 * p) * p

/-- `Vector3.lerpVectors(a, b, t) = a + (b - a) * t`, one component. -/
def lerpQ (a b t : ℚ) : ℚ := a + (b - a) * t

/-- `Vector3.lerpVectors` componentwise. -/
def lerpVecQ (a b : Vec3Q) (t : ℚ) : Vec3Q :=
  { x := lerpQ a.x b.x t, y := lerpQ a.y b.y t, z := lerpQ a.z b.z t }

/-- What one execution of an `animateCamera` closure writes into
`camera.position` and `controls.target` (lines 731-737). -/
def runCamStep (now : ℚ) (c : CamClosure) : Vec3Q × Vec3Q :=
  (lerpVecQ c.startPos c.targetPos (easeQ (camProgress c now)),
   lerpVecQ c.startLook c.targetLook (easeQ (camProgress c now)))

/-- The requestAnimationFrame world the source's closures live in: the
camera position and look-at they write, the queue of still-registered
`animateCamera` callbacks in registration order (the main `animate` loop
always runs first and re-registers itself first), the simulated time the
main loop accumulates, and the log of camera positions read at render
time. -/
structure SchedState where
  cameraPos : Vec3Q
  controlsTarget : Vec3Q
  camQueue : List CamClosure
  simTime : ℚ
  renderLog : List Vec3Q
deriving DecidableEq

/-- Run the camera callbacks of one frame in registration order: each writes
position and look-at (later writes overwrite earlier ones) and re-registers
itself exactly when `progress < 1` (lines 739-741). -/
def runQueue (now : ℚ) : List CamClosure → Vec3Q → Vec3Q → Vec3Q × Vec3Q × List CamClosure
  | [], pos, look => (pos, look, [])
  | c :: rest, pos, look =>
      let w := runCamStep now c
      let r := runQueue now rest w.1 w.2
      (r.1, r.2.1, (if camProgress c now < 1 then [c] else []) ++ r.2.2)

/-- One display frame at wall-clock `now`: the main `animate` callback runs
first (renders the scene — logging the camera position as left by the
previous frame — and advances simulated time unless paused), then every
registered `animateCamera` callback runs in order. -/
def runFrame (paused : Bool) (timeScale delta now : ℚ) (s : SchedState) : SchedState :=
  let r := runQueue now s.camQueue s.cameraPos s.controlsTarget
  { cameraPos := r.1
    controlsTarget := r.2.1
    camQueue := r.2.2
    simTime := if paused then s.simTime else s.simTime + delta * timeScale
    renderLog := s.cameraPos :: s.renderLog }

/-- `animateCameraTo(targetPosition, targetLookAt)` (lines 724-745): capture
the current camera position and look-at as the start, fix `startTime := now`,
and invoke `animateCamera()` once synchronously, which performs the first
write and registers the closure.  The previously registered closures are NOT
cancelled — they stay in the queue. -/
def requestFocus (now : ℚ) (targetPos targetLook : Vec3Q) (s : SchedState) : SchedState :=
  let c : CamClosure :=
    { startPos := s.cameraPos, startLook := s.controlsTarget
      targetPos := targetPos, targetLook := targetLook, startTime := now }
  let w := runCamStep now c
  { s with cameraPos := w.1, controlsTarget := w.2
           camQueue := s.camQueue ++ (if camProgress c now < 1 then [c] else []) }

/-- A sequence of display frames at the given wall-clock times. -/
def runFrames (paused : Bool) (timeScale delta : ℚ) (times : List ℚ)
    (s : SchedState) : SchedState :=
  times.foldl (fun st t => runFrame paused timeScale delta t st) s

/-- The camera position a closure writes at time `t`. -/
def camPosAt (c : CamClosure) (t : ℚ) : Vec3Q :=
  lerpVecQ c.startPos c.targetPos (easeQ (camProgress c t))

/-- The look-at a closure writes at time `t`. -/
def camLookAtQ (c : CamClosure) (t : ℚ) : Vec3Q :=
  lerpVecQ c.startLook c.targetLook (easeQ (camProgress c t))

/-- The ease curve maps 1 to 1. -/
lemma easeQ_one : easeQ 1 = 1 := by norm_num [easeQ]

/-- Interpolating with factor 1 lands on the target. -/
lemma lerpVecQ_one (a b : Vec3Q) : lerpVecQ a b 1 = b := by
  cases b
  simp only [lerpVecQ, lerpQ, Vec3Q.mk.injEq]
  refine ⟨by ring, by ring, by ring⟩

/-- Once the wall clock passes `startTime + duration` the progress is
exactly 1. -/
lemma camProgress_eq_one {c : CamClosure} {t : ℚ}
    (h : c.startTime + camDuration ≤ t) : camProgress c t = 1 := by
  unfold camProgress
  refine min_eq_right ?_
  rw [le_div_iff₀ (by norm_num [camDuration] : (0:ℚ) < camDuration)]
  have : (1500 : ℚ) = camDuration := by norm_num [camDuration]
  linarith [h]

/-- Conversely, a closure that no longer re-registers has passed its end
time. -/
lemma end_le_of_not_progress_lt {c : CamClosure} {t : ℚ}
    (h : ¬ camProgress c t < 1) : c.startTime + camDuration ≤ t := by
  have h1 : 1 ≤ camProgress c t := not_lt.1 h
  have h2 : 1 ≤ (t - c.startTime) / camDuration := (le_min_iff.1 h1).1
  rw [le_div_iff₀ (by norm_num [camDuration] : (0:ℚ) < camDuration)] at h2
  linarith [h2]

/-- A completed closure writes exactly its targets. -/
lemma camPosAt_complete {c : CamClosure} {t : ℚ}
    (h : c.startTime + camDuration ≤ t) :
    camPosAt c t = c.targetPos ∧ camLookAtQ c t = c.targetLook := by
  unfold camPosAt camLookAtQ
  rw [camProgress_eq_one h, easeQ_one, lerpVecQ_one, lerpVecQ_one]
  exact ⟨rfl, rfl⟩

/-- The callbacks a frame leaves registered are exactly those whose progress
is still below 1, in order. -/
lemma runQueue_queue (now : ℚ) : ∀ (l : List CamClosure) (pos look : Vec3Q),
    (runQueue now l pos look).2.2
      = l.filter (fun c => decide (camProgress c now < 1)) := by
  intro l
  induction l with
  | nil => intro _ _; rfl
  | cons c rest ih =>
      intro pos look
      simp only [runQueue]
      rw [ih]
      by_cases h : camProgress c now < 1
      · simp [List.filter_cons, h]
      · simp [List.filter_cons, h]

/-- The last-registered callback determines the camera position and look-at
a frame ends with. -/
lemma runQueue_last (now : ℚ) (c : CamClosure) : ∀ (l : List CamClosure) (pos look : Vec3Q),
    (runQueue now (l ++ [c]) pos look).1 = camPosAt c now ∧
    (runQueue now (l ++ [c]) pos look).2.1 = camLookAtQ c now := by
  intro l
  induction l with
  | nil => intro _ _; exact ⟨rfl, rfl⟩
  | cons a rest ih =>
      intro pos look
      simp only [List.cons_append, runQueue]
      exact ih _ _

/-- C5: camera transition progress is `min(elapsed/1500, 1)` — monotone in
wall time, clamped to `[0,1]`; the interpolation factor is the quadratic
ease-in-out of progress (`2p^2` below one half, `-1+(4-2p)p` above); a
closure past its end time writes exactly the requested target position and
look-at, and only closures with `progress < 1` re-register, so a completed
transition is not re-applied; and the camera stepping reads only wall-clock
time — `paused` and `timeScale` do not affect it. -/
theorem camera_transition_spec :
    (∀ (c : CamClosure) (t1 t2 : ℚ), t1 ≤ t2 → camProgress c t1 ≤ camProgress c t2) ∧
    (∀ (c : CamClosure) (t : ℚ), camProgress c t ≤ 1) ∧
    (∀ (c : CamClosure) (t : ℚ), c.startTime ≤ t → 0 ≤ camProgress c t) ∧
    (∀ p : ℚ, p < 0.5 → easeQ p = 2 * p * p) ∧
    (∀ p : ℚ, 0.5 ≤ p → easeQ p = -1 + (4 - 2 * p) * p) ∧
    (∀ (c : CamClosure) (t : ℚ),
      runCamStep t c = (camPosAt c t, camLookAtQ c t)) ∧
    (∀ (c : CamClosure) (t : ℚ), c.startTime + camDuration ≤ t →
      runCamStep t c = (c.targetPos, c.targetLook)) ∧
    (∀ (now : ℚ) (l : List CamClosure) (pos look : Vec3Q),
      (runQueue now l pos look).2.2
        = l.filter (fun c => decide (camProgress c now < 1))) ∧
    (∀ (paused paused' : Bool) (ts ts' d d' now : ℚ) (s : SchedState),
      (runFrame paused ts d now s).cameraPos = (runFrame paused' ts' d' now s).cameraPos ∧
      (runFrame paused ts d now s).controlsTarget
        = (runFrame paused' ts' d' now s).controlsTarget ∧
      (runFrame paused ts d now s).camQueue = (runFrame paused' ts' d' now s).camQueue) ∧
    camDuration = 1500 := by
  refine ⟨?_, ?_, ?_, ?_, ?_, ?_, ?_, ?_, ?_, rfl⟩
  · intro c t1 t2 h
    unfold camProgress
    refine min_le_min ?_ le_rfl
    exact div_le_div_of_nonneg_right (by linarith) (by norm_num [camDuration])
  · intro c t
    exact min_le_right _ _
  · intro c t h
    refine le_min ?_ (by norm_num)
    exact div_nonneg (by linarith) (by norm_num [camDuration])
  · intro p h
    unfold easeQ
    rw [if_pos h]
  · intro p h
    unfold easeQ
    rw [if_neg (not_lt.2 h)]
  · intro c t
    rfl
  · intro c t h
    have hc := camPosAt_complete h
    have : runCamStep t c = (camPosAt c t, camLookAtQ c t) := rfl
    rw [this, hc.1, hc.2]
  · exact runQueue_queue
  · intro paused paused' ts ts' d d' now s
    exact ⟨rfl, rfl, rfl⟩

/-- C6 counterexample: issue a focus request at t=0, run a frame at t=500
(the transition is mid-flight), then issue a second focus request at t=750.
The source never cancels the first `animateCamera` loop, so afterwards TWO
camera-transition callbacks are registered — "at most one transition is
active and a new request replaces it in place" is false of the code. -/
theorem second_request_keeps_two_transitions :
    ((requestFocus 750 { x := 1, y := 2, z := 3 } { x := 0, y := 0, z := 0 }
        (runFrame false 1 16 500
          (requestFocus 0 { x := 100, y := 80, z := 100 } { x := 0, y := 0, z := 0 }
            { cameraPos := { x := 150, y := 200, z := 150 }
              controlsTarget := { x := 0, y := 0, z := 0 }
              camQueue := [], simTime := 0, renderLog := [] }))).camQueue.length) = 2 := by
  norm_num [requestFocus, runFrame, runQueue, runCamStep, camProgress, camDuration,
    easeQ, lerpVecQ, lerpQ, min_def]

/-- The invariant carried across frames once the queue ends with the newest
closure `c2`: either the queue is `l ++ [c2]` with every older closure
started no later than `c2`, or everything has completed — the queue is empty,
the camera rests at `c2`'s targets, and `c2`'s end time has passed. -/
def InvT (c2 : CamClosure) (T : ℚ) (s : SchedState) : Prop :=
  (∃ l, s.camQueue = l ++ [c2] ∧ ∀ c ∈ l, c.startTime ≤ c2.startTime) ∨
  (s.camQueue = [] ∧ s.cameraPos = c2.targetPos ∧ s.controlsTarget = c2.targetLook ∧
    c2.startTime + camDuration ≤ T)

/-- One frame preserves the invariant and ends with the camera on `c2`'s
interpolation path. -/
lemma invT_step (c2 : CamClosure) (paused : Bool) (ts d : ℚ) {T t : ℚ} {s : SchedState}
    (hInv : InvT c2 T s) (hT : T ≤ t) :
    InvT c2 t (runFrame paused ts d t s) ∧
    (runFrame paused ts d t s).cameraPos = camPosAt c2 t ∧
    (runFrame paused ts d t s).controlsTarget = camLookAtQ c2 t := by
  rcases hInv with ⟨l, hq, hord⟩ | ⟨hq, hpos, hlook, hdone⟩
  · have hlast := runQueue_last t c2 l s.cameraPos s.controlsTarget
    have hqout : (runFrame paused ts d t s).camQueue
        = (l ++ [c2]).filter (fun c => decide (camProgress c t < 1)) := by
      show (runQueue t s.camQueue s.cameraPos s.controlsTarget).2.2 = _
      rw [hq, runQueue_queue]
    have hpos' : (runFrame paused ts d t s).cameraPos = camPosAt c2 t := by
      show (runQueue t s.camQueue s.cameraPos s.controlsTarget).1 = _
      rw [hq]
      exact hlast.1
    have hlook' : (runFrame paused ts d t s).controlsTarget = camLookAtQ c2 t := by
      show (runQueue t s.camQueue s.cameraPos s.controlsTarget).2.1 = _
      rw [hq]
      exact hlast.2
    refine ⟨?_, hpos', hlook'⟩
    by_cases hc2 : camProgress c2 t < 1
    · left
      refine ⟨l.filter (fun c => decide (camProgress c t < 1)), ?_, ?_⟩
      · rw [hqout, List.filter_append]
        simp [hc2]
      · intro c hc
        exact hord c (List.mem_of_mem_filter hc)
    · right
      have hend : c2.startTime + camDuration ≤ t := end_le_of_not_progress_lt hc2
      have hcomp := camPosAt_complete hend
      have hfilt : l.filter (fun c => decide (camProgress c t < 1)) = [] := by
        rw [List.filter_eq_nil_iff]
        intro c hc
        have hcend : c.startTime + camDuration ≤ t := by
          have := hord c hc
          linarith [hend]
        simp only [decide_eq_true_eq]
        rw [camProgress_eq_one hcend]
        exact lt_irrefl 1
      refine ⟨?_, ?_, ?_, hend⟩
      · rw [hqout, List.filter_append, hfilt]
        simp [hc2]
      · rw [hpos', hcomp.1]
      · rw [hlook', hcomp.2]
  · have hqout : (runFrame paused ts d t s).camQueue = [] := by
      show (runQueue t s.camQueue s.cameraPos s.controlsTarget).2.2 = []
      rw [hq]
      rfl
    have hdone' : c2.startTime + camDuration ≤ t := le_trans hdone hT
    have hcomp := camPosAt_complete hdone'
    have hpos' : (runFrame paused ts d t s).cameraPos = camPosAt c2 t := by
      show (runQueue t s.camQueue s.cameraPos s.controlsTarget).1 = _
      rw [hq]
      show s.cameraPos = _
      rw [hpos, hcomp.1]
    have hlook' : (runFrame paused ts d t s).controlsTarget = camLookAtQ c2 t := by
      show (runQueue t s.camQueue s.cameraPos s.controlsTarget).2.1 = _
      rw [hq]
      show s.controlsTarget = _
      rw [hlook, hcomp.2]
    exact ⟨Or.inr ⟨hqout, by rw [hpos', hcomp.1], by rw [hlook', hcomp.2], hdone'⟩,
      hpos', hlook'⟩

/-- A chain bound survives dropping a list suffix. -/
lemma chain_append_left {α : Type} (R : α → α → Prop) :
    ∀ (a : α) (l1 l2 : List α), List.Chain R a (l1 ++ l2) → List.Chain R a l1 := by
  intro a l1
  induction l1 generalizing a with
  | nil => intro l2 _; exact List.Chain.nil
  | cons b rest ih =>
      intro l2 h
      rw [List.cons_append, List.chain_cons] at h
      exact List.chain_cons.2 ⟨h.1, ih b l2 h.2⟩

/-- C6 amended: the source does NOT cancel the in-flight transition — both
callback loops stay registered (see the counterexample) — but because the
newer closure `c2` was registered last, it writes last within every frame:
at every frame time `t` of a nondecreasing frame schedule starting no
earlier than `c2.startTime`, the end-of-frame camera position and look-at
equal `c2`'s eased interpolant at `t` alone (settling on `c2`'s target once
complete); the abandoned transition's writes never survive to the end of a
frame, so its target is never rendered. -/
theorem camera_last_writer (paused : Bool) (ts d : ℚ) (l : List CamClosure)
    (c2 : CamClosure) (s : SchedState) (times pre post : List ℚ) (t : ℚ)
    (hord : ∀ c ∈ l, c.startTime ≤ c2.startTime)
    (hq : s.camQueue = l ++ [c2])
    (hchain : List.Chain (· ≤ ·) c2.startTime times)
    (hsplit : times = pre ++ t :: post) :
    (runFrames paused ts d (pre ++ [t]) s).cameraPos = camPosAt c2 t ∧
    (runFrames paused ts d (pre ++ [t]) s).controlsTarget = camLookAtQ c2 t := by
  subst hsplit
  have hchain1 : List.Chain (· ≤ ·) c2.startTime (pre ++ [t]) := by
    have : pre ++ t :: post = (pre ++ [t]) ++ post := by simp
    rw [this] at hchain
    exact chain_append_left _ _ _ _ hchain
  have aux : ∀ (pre' : List ℚ) (T : ℚ) (s' : SchedState), InvT c2 T s' →
      List.Chain (· ≤ ·) T (pre' ++ [t]) →
      (runFrames paused ts d (pre' ++ [t]) s').cameraPos = camPosAt c2 t ∧
      (runFrames paused ts d (pre' ++ [t]) s').controlsTarget = camLookAtQ c2 t := by
    intro pre'
    induction pre' with
    | nil =>
        intro T s' hInv hch
        have hTt : T ≤ t := (List.chain_cons.1 hch).1
        have hstep := invT_step c2 paused ts d hInv hTt
        exact ⟨hstep.2.1, hstep.2.2⟩
    | cons a rest ih =>
        intro T s' hInv hch
        rw [List.cons_append, List.chain_cons] at hch
        have hstep := invT_step c2 paused ts d hInv hch.1
        have : runFrames paused ts d ((a :: rest) ++ [t]) s'
            = runFrames paused ts d (rest ++ [t]) (runFrame paused ts d a s') := rfl
        rw [this]
        exact ih a _ hstep.1 hch.2
  exact aux pre c2.startTime s (Or.inl ⟨l, hq, hord⟩) hchain1

/-- The older closure of the C6 witness scenario (requested at t=0). -/
def cw1 : CamClosure :=
  { startPos := { x := 150, y := 200, z := 150 }, startLook := { x := 0, y := 0, z := 0 }
    targetPos := { x := 100, y := 80, z := 100 }, targetLook := { x := 0, y := 0, z := 0 }
    startTime := 0 }

/-- The newer closure of the C6 witness scenario (requested at t=750,
mid-flight). -/
def cw2 : CamClosure :=
  { startPos := { x := 10, y := 10, z := 10 }, startLook := { x := 0, y := 0, z := 0 }
    targetPos := { x := 1, y := 2, z := 3 }, targetLook := { x := 4, y := 5, z := 6 }
    startTime := 750 }

/-- The scheduler state right after the second request of the C6 witness
scenario: both closures registered, the newer one last. -/
def schedW : SchedState :=
  { cameraPos := { x := 10, y := 10, z := 10 }, controlsTarget := { x := 0, y := 0, z := 0 }
    camQueue := [cw1, cw2], simTime := 0, renderLog := [] }

/-- Witness for the amended C6 theorem: with both closures registered and
frames at t=800 and t=2500, the frame at t=800 ends on the NEW transition's
path. -/
theorem camera_last_writer_witness :
    (∀ c ∈ [cw1], c.startTime ≤ cw2.startTime) ∧
    schedW.camQueue = [cw1] ++ [cw2] ∧
    List.Chain (· ≤ ·) cw2.startTime [800, 2500] ∧
    ([800, 2500] : List ℚ) = [] ++ 800 :: [2500] ∧
    ((runFrames false 1 16 ([] ++ [800]) schedW).cameraPos = camPosAt cw2 800 ∧
     (runFrames false 1 16 ([] ++ [800]) schedW).controlsTarget = camLookAtQ cw2 800) := by
  have hord : ∀ c ∈ [cw1], c.startTime ≤ cw2.startTime := by
    intro c hc
    rw [List.mem_singleton] at hc
    subst hc
    norm_num [cw1, cw2]
  have hchain : List.Chain (· ≤ ·) cw2.startTime [800, 2500] :=
    List.Chain.cons (by norm_num [cw2]) (List.Chain.cons (by norm_num) List.Chain.nil)
  exact ⟨hord, rfl, hchain, rfl,
    camera_last_writer false 1 16 [cw1] cw2 schedW [800, 2500] [] [2500] 800
      hord rfl hchain rfl⟩

end SolarSim
